import Mathlib

/-!
Shallow embedding of the call-signaling, media-negotiation and message-sync
core of the chat application (source: src/unnamed/part_002, the
call_requests schema in src/unnamed/part_001 and the messages schema in
src/unnamed/part_000).

The React component keeps its state in hooks and refs; here that state is an
explicit record, and every handler of the source becomes a pure function on
that record.  Asynchronous environment effects are passed in as explicit
parameters: whether getUserMedia succeeds (mediaOk), whether applying a
given ICE candidate succeeds (candOk), the HTTP fetch outcome for the ICE
token endpoint (FetchResult) and the current clock (now).  The peer
connection object is modelled as a Session record; creating a fresh
RTCPeerConnection is modelled by stamping the session with a fresh
generation number (nextGen), so that replacing the connection is observable.
-/

namespace Huckter

/-- Persisted status of a call_requests row
(src/unnamed/part_001 lines 1-9, src/unnamed/part_002 line 84). -/
inductive RowStatus
  | pending
  | accepted
  | rejected
  | ended
  | cancelled
  deriving DecidableEq, Repr

/-- Local projection of a call_requests row, the ActiveCall type of
src/unnamed/part_002 lines 89-95.  User ids are strings (uuids). -/
structure ActiveCall where
  id : Nat
  conversationId : Nat
  requesterId : String
  acceptedBy : Option String
  status : RowStatus
  deriving DecidableEq, Repr

/-- Raw realtime payload for a call_requests row, Partial of CallRequestRow.
A field is none when it is absent from the payload or not a finite number
(the source checks Number.isFinite on id and conversation_id). -/
structure RawCallRow where
  id : Option Nat
  conversation_id : Option Nat
  requester_id : Option String
  accepted_by : Option String
  status : Option RowStatus
  deriving DecidableEq, Repr

/-- normalizeCall (src/unnamed/part_002 lines 331-344): requires a finite id,
a finite conversation id and a truthy requester id (the empty string is
falsy in JS), defaults a missing status to pending. -/
def normalizeCall (row : RawCallRow) : Option ActiveCall :=
  match row.id, row.conversation_id, row.requester_id with
  | some i, some conv, some req =>
    if req = "" then none
    else
      some { id := i, conversationId := conv, requesterId := req,
             acceptedBy := row.accepted_by,
             status := row.status.getD RowStatus.pending }
  | _, _, _ => none

/-- Local UI call lifecycle state (src/unnamed/part_002 lines 236-238). -/
inductive UIStatus
  | idle
  | requesting
  | ringing
  | connecting
  | inCall
  | error
  deriving DecidableEq, Repr

/-- One RTCPeerConnection, modelled by its generation stamp (object
identity), its local and remote session descriptions and the list of remote
ICE candidates applied to it so far, in application order. -/
structure Session where
  gen : Nat
  remoteDescription : Option String
  localDescription : Option String
  appliedCandidates : List String
  deriving DecidableEq, Repr

/-- The media-side refs of the component: peerConnectionRef,
pendingRemoteCandidatesRef, handshakeStartedForCallRef, the local and
remote MediaStream states and the mute flag (src/unnamed/part_002 lines
245-266).  nextGen is the supply of fresh peer-connection identities. -/
structure MediaState where
  session : Option Session
  pendingRemoteCandidates : List String
  handshakeStartedFor : Option Nat
  localStream : Option Unit
  remoteStream : Option Unit
  isMicMuted : Bool
  nextGen : Nat
  deriving DecidableEq, Repr

/-- The five broadcast signal kinds (src/unnamed/part_002 lines 1048-1154). -/
inductive SignalKind
  | callAccepted
  | webrtcOffer
  | webrtcAnswer
  | webrtcIce
  | callEnded
  deriving DecidableEq, Repr

/-- SignalPayload (src/unnamed/part_002 lines 97-104); fromId and toId model
the from and to fields. -/
structure SignalPayload where
  callId : Nat
  fromId : String
  toId : Option String
  conversationId : Nat
  sdp : Option String
  candidate : Option String
  deriving DecidableEq, Repr

/-- The controller state visible to the call handlers: callStatus,
callError, the three call slots, the active conversation, the media refs
and the log of signals sent over the broadcast channel. -/
structure CtrlState where
  callStatus : UIStatus
  callError : Option String
  activeCall : Option ActiveCall
  incomingCall : Option ActiveCall
  pendingOutgoingCall : Option ActiveCall
  activeConversationId : Option Nat
  media : MediaState
  sentSignals : List (SignalKind × SignalPayload)
  deriving DecidableEq, Repr

/-- Media refs in their initial (all torn down) configuration. -/
def initialMedia : MediaState :=
  { session := none, pendingRemoteCandidates := [], handshakeStartedFor := none,
    localStream := none, remoteStream := none, isMicMuted := false, nextGen := 0 }

/-- Initial controller state. -/
def initialCtrlState : CtrlState :=
  { callStatus := UIStatus.idle, callError := none, activeCall := none,
    incomingCall := none, pendingOutgoingCall := none,
    activeConversationId := none, media := initialMedia, sentSignals := [] }

/-- resetCallMedia (src/unnamed/part_002 lines 346-364): closes the peer
connection if any, discards the queued remote candidates, clears the
handshake guard, stops and drops both media streams and unmutes.  The
generation supply survives, since closing a connection does not reuse its
identity. -/
def resetCallMedia (m : MediaState) : MediaState :=
  { session := none, pendingRemoteCandidates := [], handshakeStartedFor := none,
    localStream := none, remoteStream := none, isMicMuted := false,
    nextGen := m.nextGen }

/-- ensureLocalStream (src/unnamed/part_002 lines 377-388): reuses the
current stream if one exists, otherwise acquires one; mediaOk says whether
the secure-context check and getUserMedia succeed.  none models the thrown
error. -/
def ensureLocalStream (mediaOk : Bool) (m : MediaState) : Option MediaState :=
  if m.localStream.isSome then some m
  else if mediaOk then some { m with localStream := some () } else none

/-- createPeerConnection (src/unnamed/part_002 lines 478-545): closes any
existing connection and installs a fresh one with no descriptions and no
applied candidates. -/
def createPeerConnection (m : MediaState) : MediaState :=
  { m with
    session := some { gen := m.nextGen, remoteDescription := none,
                      localDescription := none, appliedCandidates := [] },
    nextGen := m.nextGen + 1 }

/-- setLocalDescription on the current connection, a no-op with no session. -/
def setLocalDescription (sdp : String) (m : MediaState) : MediaState :=
  { m with session := m.session.map (fun sess => { sess with localDescription := some sdp }) }

/-- setRemoteDescription on the current connection, a no-op with no session. -/
def setRemoteDescription (sdp : String) (m : MediaState) : MediaState :=
  { m with session := m.session.map (fun sess => { sess with remoteDescription := some sdp }) }

/-- One try/await peer.addIceCandidate(candidate) with its failure swallowed
(src/unnamed/part_002 lines 470-474 and 1130-1138): the candidate is
appended to the applied list when the environment accepts it (candOk) and
ignored otherwise. -/
def addIceCandidateTry (candOk : String → Bool) (c : String) (m : MediaState) : MediaState :=
  { m with session := m.session.map (fun sess =>
      if candOk c then { sess with appliedCandidates := sess.appliedCandidates ++ [c] }
      else sess) }

/-- flushPendingRemoteCandidates (src/unnamed/part_002 lines 459-476):
returns unless a session with a remote description exists and the queue is
nonempty; then empties the queue and applies each queued candidate in
arrival order, swallowing individual failures. -/
def flushPendingRemoteCandidates (candOk : String → Bool) (m : MediaState) : MediaState :=
  match m.session with
  | none => m
  | some sess =>
    if sess.remoteDescription.isNone then m
    else if m.pendingRemoteCandidates = [] then m
    else
      let queued := m.pendingRemoteCandidates
      let m1 := { m with pendingRemoteCandidates := ([] : List String) }
      queued.foldl (fun acc c => addIceCandidateTry candOk c acc) m1

/-- Deterministic stand-in for the SDP produced by peer.createOffer. -/
def offerSdp : String := "offer-sdp"

/-- Deterministic stand-in for the SDP produced by peer.createAnswer. -/
def answerSdp : String := "answer-sdp"

/-- Fallback message of the startCallerHandshake catch block
(src/unnamed/part_002 line 579). -/
def mediaFailureMsg : String := "Could not start camera/mic for the call."

/-- Fallback message of the webrtc-offer handler catch block
(src/unnamed/part_002 line 1113). -/
def answerFailureMsg : String := "Could not answer the call."

/-- startCallerHandshake (src/unnamed/part_002 lines 547-584): requires the
call to have an acceptor; returns when the handshake guard already names
this call id and a connection exists; otherwise records the guard, moves to
connecting, acquires local media, creates a fresh connection, sets the
offer as local description and sends the webrtc-offer envelope to the
acceptor.  On media failure the guard is released and the state moves to
error.  (resolveIceServers only feeds the connection configuration, which
none of the observables here depend on; it is modelled separately.) -/
def startCallerHandshake (me : String) (mediaOk : Bool) (call : ActiveCall)
    (s : CtrlState) : CtrlState :=
  match call.acceptedBy with
  | none => s
  | some callee =>
    if s.media.handshakeStartedFor = some call.id ∧ s.media.session.isSome = true then s
    else
      let s2 : CtrlState :=
        { s with media := { s.media with handshakeStartedFor := some call.id },
                 callStatus := UIStatus.connecting }
      match ensureLocalStream mediaOk s2.media with
      | none =>
        { s2 with media := { s2.media with handshakeStartedFor := none },
                  callStatus := UIStatus.error,
                  callError := some mediaFailureMsg }
      | some m1 =>
        let m2 := setLocalDescription offerSdp (createPeerConnection m1)
        { s2 with media := m2,
                  sentSignals := s2.sentSignals ++
                    [(SignalKind.webrtcOffer,
                      { callId := call.id, fromId := me, toId := some callee,
                        conversationId := call.conversationId,
                        sdp := some offerSdp, candidate := none })] }

/-- Whether an Option slot holds a call with the given id, the
slotRef.current?.id comparison of the source. -/
def slotHasId (slot : Option ActiveCall) (i : Nat) : Bool :=
  match slot with
  | some c => decide (c.id = i)
  | none => false

/-- Message set when the requester learns the call was rejected
(src/unnamed/part_002 line 1023). -/
def callDeclinedMsg : String := "Call was declined."

/-- handleCallChange (src/unnamed/part_002 lines 972-1027): the single
handler for call_requests INSERT and UPDATE notifications.  me is the
current user id; mediaOk parameterizes the caller handshake it may start. -/
def handleCallChange (me : String) (mediaOk : Bool) (raw : RawCallRow)
    (s : CtrlState) : CtrlState :=
  match normalizeCall raw with
  | none => s
  | some call =>
    match call.status with
    | RowStatus.pending =>
      if call.requesterId = me then
        { s with pendingOutgoingCall := some call, callStatus := UIStatus.requesting }
      else
        { s with incomingCall := some call,
                 callStatus := if s.callStatus = UIStatus.idle then UIStatus.ringing
                               else s.callStatus }
    | RowStatus.accepted =>
      let s0 := { s with activeConversationId := some call.conversationId }
      match call.acceptedBy with
      | some cb =>
        if call.requesterId = me then
          let s1 := { s0 with pendingOutgoingCall := none, callError := none,
                              activeCall := some call }
          if s1.media.session.isNone then startCallerHandshake me mediaOk call s1
          else s1
        else if cb = me then
          { s0 with incomingCall := none, callError := none, activeCall := some call,
                    callStatus := UIStatus.connecting }
        else s0
      | none => s0
    | _ =>
      let isRelated := slotHasId s.activeCall call.id || slotHasId s.incomingCall call.id
        || slotHasId s.pendingOutgoingCall call.id
      if isRelated then
        let s1 := { s with media := resetCallMedia s.media, activeCall := none,
                           incomingCall := none, pendingOutgoingCall := none }
        let s2 := if call.status = RowStatus.rejected ∧ call.requesterId = me then
                    { s1 with callError := some callDeclinedMsg }
                  else s1
        { s2 with callStatus := UIStatus.idle }
      else s

/-- Whether a broadcast envelope is addressed to a different party
(signal.to && signal.to !== currentUser.id). -/
def sigAddressedElsewhere (me : String) (sig : SignalPayload) : Bool :=
  match sig.toId with
  | some t => decide (t ≠ me)
  | none => false

/-- The call-accepted broadcast handler (src/unnamed/part_002 lines
1053-1070): accelerates requesting into connecting and starts the caller
handshake when the envelope names the pending outgoing call. -/
def onCallAccepted (me : String) (mediaOk : Bool) (sig : SignalPayload)
    (s : CtrlState) : CtrlState :=
  if sigAddressedElsewhere me sig then s
  else
    match s.pendingOutgoingCall with
    | none => s
    | some pending =>
      if pending.id = sig.callId then
        let accepted : ActiveCall :=
          { pending with acceptedBy := some sig.fromId, status := RowStatus.accepted }
        let s1 := { s with pendingOutgoingCall := none, activeCall := some accepted,
                           callStatus := UIStatus.connecting,
                           activeConversationId := some accepted.conversationId }
        startCallerHandshake me mediaOk accepted s1
      else s

/-- The webrtc-offer broadcast handler (src/unnamed/part_002 lines
1071-1116): the callee handshake.  Promotes a matching incoming call to an
active accepted call when needed, then acquires media, replaces the peer
connection, applies the offer as remote description, flushes the candidate
queue, sets the answer as local description and sends webrtc-answer. -/
def onOffer (me : String) (mediaOk : Bool) (candOk : String → Bool)
    (sig : SignalPayload) (s : CtrlState) : CtrlState :=
  if sigAddressedElsewhere me sig then s
  else
    match sig.sdp with
    | none => s
    | some offerReceived =>
      let step1 : Option (ActiveCall × CtrlState) :=
        match s.activeCall with
        | some c =>
          if c.id = sig.callId then some (c, s)
          else
            match s.incomingCall with
            | some inc =>
              if inc.id = sig.callId then
                let c2 := { inc with status := RowStatus.accepted, acceptedBy := some me }
                some (c2, { s with incomingCall := none, activeCall := some c2 })
              else none
            | none => none
        | none =>
          match s.incomingCall with
          | some inc =>
            if inc.id = sig.callId then
              let c2 := { inc with status := RowStatus.accepted, acceptedBy := some me }
              some (c2, { s with incomingCall := none, activeCall := some c2 })
            else none
          | none => none
      match step1 with
      | none => s
      | some (call, s1) =>
        let s2 := { s1 with callStatus := UIStatus.connecting }
        match ensureLocalStream mediaOk s2.media with
        | none =>
          { s2 with callStatus := UIStatus.error, callError := some answerFailureMsg }
        | some m1 =>
          let m5 := setLocalDescription answerSdp
            (flushPendingRemoteCandidates candOk
              (setRemoteDescription offerReceived (createPeerConnection m1)))
          { s2 with media := m5,
                    sentSignals := s2.sentSignals ++
                      [(SignalKind.webrtcAnswer,
                        { callId := call.id, fromId := me, toId := some sig.fromId,
                          conversationId := call.conversationId,
                          sdp := some answerSdp, candidate := none })] }

/-- The webrtc-answer broadcast handler (src/unnamed/part_002 lines
1117-1124): applies the answer as remote description and flushes the
candidate queue, requiring an addressed envelope with an sdp and an
existing connection. -/
def onAnswer (me : String) (candOk : String → Bool) (sig : SignalPayload)
    (s : CtrlState) : CtrlState :=
  if sigAddressedElsewhere me sig then s
  else
    match sig.sdp, s.media.session with
    | some sdp, some _ =>
      { s with media :=
          flushPendingRemoteCandidates candOk (setRemoteDescription sdp s.media) }
    | _, _ => s

/-- The webrtc-ice broadcast handler (src/unnamed/part_002 lines
1125-1139): requires a candidate and an existing connection; applies the
candidate immediately when a remote description is set, otherwise queues
it.  Candidates arriving with no connection at all are dropped. -/
def onIce (me : String) (candOk : String → Bool) (sig : SignalPayload)
    (s : CtrlState) : CtrlState :=
  if sigAddressedElsewhere me sig then s
  else
    match sig.candidate, s.media.session with
    | some cand, some sess =>
      if sess.remoteDescription.isSome then
        { s with media := addIceCandidateTry candOk cand s.media }
      else
        { s with media := { s.media with
            pendingRemoteCandidates := s.media.pendingRemoteCandidates ++ [cand] } }
    | _, _ => s

/-- The call-ended broadcast handler (src/unnamed/part_002 lines
1140-1153): when the envelope names a call held in any slot, tears down all
media and returns every slot to idle.  It performs no addressing check. -/
def onCallEnded (sig : SignalPayload) (s : CtrlState) : CtrlState :=
  let isRelated := slotHasId s.activeCall sig.callId
    || slotHasId s.incomingCall sig.callId
    || slotHasId s.pendingOutgoingCall sig.callId
  if isRelated then
    { s with media := resetCallMedia s.media, activeCall := none,
             incomingCall := none, pendingOutgoingCall := none,
             callStatus := UIStatus.idle }
  else s

/-- A persisted call_requests row (src/unnamed/part_001 lines 1-9). -/
structure CallRow where
  id : Nat
  conversation_id : Nat
  requester_id : String
  accepted_by : Option String
  status : RowStatus
  deriving DecidableEq, Repr

/-- The row a local ActiveCall projection corresponds to. -/
def rowOfCall (c : ActiveCall) : CallRow :=
  { id := c.id, conversation_id := c.conversationId, requester_id := c.requesterId,
    accepted_by := c.acceptedBy, status := c.status }

/-- An insert the controller issues to call_requests
(src/unnamed/part_002 lines 1315-1321). -/
structure InsertRequest where
  conversation_id : Nat
  requester_id : String
  status : RowStatus
  deriving DecidableEq, Repr

/-- An update the controller issues to call_requests.  newAcceptedBy is
some v when the update statement sets accepted_by to v and none when the
statement leaves the column untouched. -/
structure UpdateRequest where
  rowId : Nat
  newStatus : RowStatus
  newAcceptedBy : Option (Option String)
  deriving DecidableEq, Repr

/-- Effect of an UpdateRequest on a row. -/
def applyUpdate (u : UpdateRequest) (r : CallRow) : CallRow :=
  if r.id = u.rowId then
    { r with status := u.newStatus,
             accepted_by := match u.newAcceptedBy with
                            | some v => v
                            | none => r.accepted_by }
  else r

/-- Row-level policy call_requests_update_requester_or_acceptor
(src/unnamed/part_001 lines 30-36): the using clause reads the old row, the
with check clause reads the new row. -/
def updatePolicyAllows (uid : String) (oldRow newRow : CallRow) : Bool :=
  (decide (oldRow.status = RowStatus.pending) || decide (uid = oldRow.requester_id)
      || decide (oldRow.accepted_by = some uid))
    && (decide (uid = newRow.requester_id) || decide (newRow.accepted_by = some uid))

/-- The transition graph of the spec: pending to accepted, rejected or
cancelled, and accepted to ended. -/
def allowedTransition : RowStatus → RowStatus → Bool
  | RowStatus.pending, RowStatus.accepted => true
  | RowStatus.pending, RowStatus.rejected => true
  | RowStatus.pending, RowStatus.cancelled => true
  | RowStatus.accepted, RowStatus.ended => true
  | _, _ => false

/-- Message thrown by assertMediaContext on an insecure context
(src/unnamed/part_002 lines 368-369). -/
def secureContextMsg : String :=
  "Calls need secure context. Open this app on trusted HTTPS (or localhost)."

/-- Message set when the inserted row does not normalize
(src/unnamed/part_002 line 1336). -/
def createCallFailedMsg : String := "Failed to create call request."

/-- requestCall (src/unnamed/part_002 lines 1298-1342), with the insert
assumed to succeed and to assign id newId; mediaCtxOk parameterizes
assertMediaContext.  Returns the new state and the insert issued to the
persistence layer, if any.  The guard skips only connecting, in-call and
requesting states. -/
def requestCall (me : String) (mediaCtxOk : Bool) (newId : Nat)
    (s : CtrlState) : CtrlState × Option InsertRequest :=
  match s.activeConversationId with
  | none => (s, none)
  | some conv =>
    if s.callStatus = UIStatus.connecting ∨ s.callStatus = UIStatus.inCall
        ∨ s.callStatus = UIStatus.requesting then
      (s, none)
    else if mediaCtxOk then
      let s0 := { s with callError := none }
      let insert : InsertRequest :=
        { conversation_id := conv, requester_id := me, status := RowStatus.pending }
      let row : RawCallRow :=
        { id := some newId, conversation_id := some conv, requester_id := some me,
          accepted_by := none, status := some RowStatus.pending }
      match normalizeCall row with
      | some pending =>
        ({ s0 with pendingOutgoingCall := some pending,
                   callStatus := UIStatus.requesting }, some insert)
      | none =>
        ({ s0 with callStatus := UIStatus.error,
                   callError := some createCallFailedMsg }, some insert)
    else
      ({ s with callStatus := UIStatus.error, callError := some secureContextMsg }, none)

/-- acceptIncomingCall (src/unnamed/part_002 lines 1344-1379), with the
update assumed to succeed: moves the incoming call into the active slot as
accepted by me, moves to connecting and emits the call-accepted signal to
the requester.  Returns the update issued to the persistence layer. -/
def acceptIncomingCall (me : String) (s : CtrlState) : CtrlState × Option UpdateRequest :=
  match s.incomingCall with
  | none => (s, none)
  | some inc =>
    let acceptedCall : ActiveCall :=
      { inc with status := RowStatus.accepted, acceptedBy := some me }
    ({ s with activeConversationId := some acceptedCall.conversationId,
              incomingCall := none, activeCall := some acceptedCall,
              callStatus := UIStatus.connecting, callError := none,
              sentSignals := s.sentSignals ++
                [(SignalKind.callAccepted,
                  { callId := acceptedCall.id, fromId := me,
                    toId := some acceptedCall.requesterId,
                    conversationId := acceptedCall.conversationId,
                    sdp := none, candidate := none })] },
     some { rowId := inc.id, newStatus := RowStatus.accepted,
            newAcceptedBy := some (some me) })

/-- rejectIncomingCall (src/unnamed/part_002 lines 1381-1401), with the
update assumed to succeed: updates the row to rejected with accepted_by set
to the local (declining) user and clears the incoming slot. -/
def rejectIncomingCall (me : String) (s : CtrlState) : CtrlState × Option UpdateRequest :=
  match s.incomingCall with
  | none => (s, none)
  | some inc =>
    ({ s with incomingCall := none, callStatus := UIStatus.idle },
     some { rowId := inc.id, newStatus := RowStatus.rejected,
            newAcceptedBy := some (some me) })

/-- The call endCall acts on: activeCall, else pendingOutgoingCall, else
incomingCall (src/unnamed/part_002 line 1406). -/
def currentCallOf (s : CtrlState) : Option ActiveCall :=
  (s.activeCall.orElse (fun _ => s.pendingOutgoingCall)).orElse (fun _ => s.incomingCall)

/-- endCall (src/unnamed/part_002 lines 1403-1445): cancels a pending call
the local user requested and ends any other current call.  dbError is the
outcome of the issued status update: none for success, some message for a
persistence failure.  On failure the source sets status error with the
message and returns without teardown (lines 1422-1426); on success it
emits call-ended to the counterparty when one is known, tears down all
media and returns every slot to idle. -/
def endCall (me : String) (dbError : Option String) (s : CtrlState) :
    CtrlState × Option UpdateRequest :=
  match currentCallOf s with
  | none => (s, none)
  | some current =>
    let nextStatus : RowStatus :=
      if current.status = RowStatus.pending ∧ current.requesterId = me then
        RowStatus.cancelled
      else RowStatus.ended
    let newState : CtrlState :=
      match dbError with
      | some msg => { s with callStatus := UIStatus.error, callError := some msg }
      | none =>
        let targetId : Option String :=
          if me = current.requesterId then current.acceptedBy
          else some current.requesterId
        let s1 : CtrlState :=
          match targetId with
          | some t =>
            { s with sentSignals := s.sentSignals ++
                [(SignalKind.callEnded,
                  { callId := current.id, fromId := me, toId := some t,
                    conversationId := current.conversationId,
                    sdp := none, candidate := none })] }
          | none => s
        { s1 with media := resetCallMedia s1.media, activeCall := none,
                  incomingCall := none, pendingOutgoingCall := none,
                  callStatus := UIStatus.idle }
    (newState,
     some { rowId := current.id, newStatus := nextStatus, newAcceptedBy := none })

/-- A message entry of the local view (src/unnamed/part_002 lines 63-69,
restricted to the fields the synchronization logic reads). -/
structure ChatMessage where
  id : Int
  content : String
  deriving DecidableEq, Repr

/-- The optimistic append of sendMessage (src/unnamed/part_002 lines
1462-1475): a placeholder with a locally chosen negative id. -/
def optimisticAppend (optimisticId : Int) (content : String)
    (msgs : List ChatMessage) : List ChatMessage :=
  msgs ++ [{ id := optimisticId, content := content }]

/-- The in-place reconciliation of sendMessage on persistence success
(src/unnamed/part_002 lines 1502-1512): the placeholder takes the
server-assigned id; no other entry is touched and no dedup happens here. -/
def reconcileSend (optimisticId insertedId : Int)
    (msgs : List ChatMessage) : List ChatMessage :=
  msgs.map (fun m => if m.id = optimisticId then { m with id := insertedId } else m)

/-- The messages INSERT realtime handler restricted to the active
conversation (src/unnamed/part_002 lines 901-917): appended only when no
entry with the same id is present. -/
def feedInsert (insertedId : Int) (content : String)
    (msgs : List ChatMessage) : List ChatMessage :=
  if msgs.any (fun m => m.id = insertedId) then msgs
  else msgs ++ [{ id := insertedId, content := content }]

/-- Number of entries carrying a given id. -/
def countWithId (i : Int) (msgs : List ChatMessage) : Nat :=
  (msgs.filter (fun m => m.id = i)).length

/-- JSON values, as far as the ICE configuration code inspects them. -/
inductive JVal where
  | jnull
  | jbool (b : Bool)
  | jnum (n : Int)
  | jstr (s : String)
  | jarr (xs : List JVal)
  | jobj (kvs : List (String × JVal))

/-- Property lookup on an object literal. -/
def jlookup (kvs : List (String × JVal)) (k : String) : Option JVal :=
  (kvs.find? (fun kv => kv.fst = k)).map (fun kv => kv.snd)

/-- Property access on an arbitrary value: none when the value is not an
object or lacks the key (modelling undefined). -/
def jGetField (j : JVal) (k : String) : Option JVal :=
  match j with
  | JVal.jobj kvs => jlookup kvs k
  | _ => none

/-- The urls field of an RTCIceServer: a single URL or an array of URLs. -/
inductive UrlsVal
  | single (s : String)
  | multi (ss : List String)
  deriving DecidableEq, Repr

/-- RTCIceServer as the source constructs it
(src/unnamed/part_002 lines 154-163). -/
structure IceServer where
  urls : UrlsVal
  username : Option String
  credential : Option String
  deriving DecidableEq, Repr

/-- A string field of an entry, kept only when it is a string. -/
def strField (kvs : List (String × JVal)) (k : String) : Option String :=
  match jlookup kvs k with
  | some (JVal.jstr s) => some s
  | _ => none

/-- Checks a JSON array holds only strings and extracts them. -/
def asStringList : List JVal → Option (List String)
  | [] => some []
  | JVal.jstr s :: rest => (asStringList rest).map (fun ss => s :: ss)
  | _ => none

/-- normalizeIceServer (src/unnamed/part_002 lines 139-164): the entry must
be an object whose urls (falling back to url when urls is absent or null)
is a string or an array of strings; username and credential are kept when
they are strings. -/
def normalizeIceServer (entry : JVal) : Option IceServer :=
  match entry with
  | JVal.jobj kvs =>
    let urlsRaw : Option JVal :=
      match jlookup kvs "urls" with
      | some JVal.jnull => jlookup kvs "url"
      | none => jlookup kvs "url"
      | some v => some v
    match urlsRaw with
    | some (JVal.jstr s) =>
      some { urls := UrlsVal.single s, username := strField kvs "username",
             credential := strField kvs "credential" }
    | some (JVal.jarr xs) =>
      match asStringList xs with
      | some ss =>
        some { urls := UrlsVal.multi ss, username := strField kvs "username",
               credential := strField kvs "credential" }
      | none => none
    | _ => none
  | _ => none

/-- sanitizeIceServers (src/unnamed/part_002 lines 166-173): keeps the
well-formed entries of an array and yields nothing for any other value
(including undefined, modelled as none). -/
def sanitizeIceServers (v : Option JVal) : List IceServer :=
  match v with
  | some (JVal.jarr xs) => xs.filterMap normalizeIceServer
  | _ => []

/-- The static STUN-only fallback configuration
(src/unnamed/part_002 lines 133-137). -/
def defaultIceServers : List IceServer :=
  [{ urls := UrlsVal.multi ["stun:stun.l.google.com:19302",
                            "stun:stun1.l.google.com:19302"],
     username := none, credential := none }]

/-- The VITE_ICE_SERVERS_JSON build-time setting: unset or blank, a string
JSON.parse rejects, or a parsed value. -/
inductive EnvIceSetting
  | blank
  | malformed
  | parsed (v : JVal)

/-- parseIceServers (src/unnamed/part_002 lines 181-194): the env override
when it parses and holds at least one valid entry, the STUN default
otherwise. -/
def parseIceServers (env : EnvIceSetting) : List IceServer :=
  match env with
  | EnvIceSetting.blank => defaultIceServers
  | EnvIceSetting.malformed => defaultIceServers
  | EnvIceSetting.parsed v =>
    let valid := sanitizeIceServers (some v)
    if valid.length > 0 then valid else defaultIceServers

/-- ASCII case folding of one character, modelling the i flag of the
turns?: regex on the ASCII scheme prefixes it is applied to. -/
def lowerChar (c : Char) : Char :=
  if 65 ≤ c.toNat ∧ c.toNat ≤ 90 then Char.ofNat (c.toNat + 32) else c

/-- Character-list prefix test. -/
def isPrefixChars : List Char → List Char → Bool
  | [], _ => true
  | _ :: _, [] => false
  | c :: cs, d :: ds => decide (c = d) && isPrefixChars cs ds

/-- Whether a URL names a TURN relay, the case-insensitive turns?: prefix
regex of hasTurnServer (src/unnamed/part_002 lines 175-179). -/
def isTurnUrl (u : String) : Bool :=
  isPrefixChars ['t', 'u', 'r', 'n', ':'] (u.data.map lowerChar)
    || isPrefixChars ['t', 'u', 'r', 'n', 's', ':'] (u.data.map lowerChar)

/-- The URLs of a server entry as a list. -/
def urlsList : UrlsVal → List String
  | UrlsVal.single s => [s]
  | UrlsVal.multi ss => ss

/-- hasTurnServer (src/unnamed/part_002 lines 175-179). -/
def hasTurnServer (servers : List IceServer) : Bool :=
  servers.any (fun srv => (urlsList srv.urls).any isTurnUrl)

/-- The dynamicIceCacheRef entry: servers plus expiry in epoch ms. -/
structure IceCache where
  servers : List IceServer
  expiresAt : Int
  deriving DecidableEq, Repr

/-- ICE configuration provenance (src/unnamed/part_002 line 248). -/
inductive IceConfigMode
  | env
  | dynamic
  deriving DecidableEq, Repr

/-- The resolver state: dynamicIceCacheRef, currentIceServers and
iceConfigMode. -/
structure IceState where
  cache : Option IceCache
  currentIceServers : List IceServer
  iceConfigMode : IceConfigMode

/-- Outcome of the fetch to the twilio-ice-servers endpoint: a network or
thrown failure, or a response with its ok flag and its parsed JSON body
(none when response.json() throws). -/
inductive FetchResult
  | netError
  | response (ok : Bool) (body : Option JVal)

/-- Number(x) on the JSON values the token endpoint can produce; none
models NaN.  (Numeric JSON payloads are modelled as integers, so the
Math.floor of the source is the identity here.) -/
def jsNumber : Option JVal → Option Int
  | some (JVal.jnum n) => some n
  | some JVal.jnull => some 0
  | some (JVal.jbool true) => some 1
  | some (JVal.jbool false) => some 0
  | _ => none

/-- The ttlSeconds the resolver uses: the payload value when finite and
positive, 600 otherwise (src/unnamed/part_002 lines 438-442). -/
def effectiveTtl (body : JVal) : Int :=
  match jsNumber (jGetField body "ttlSeconds") with
  | some n => if n > 0 then n else 600
  | none => 600

/-- The shared non-cache path of resolveIceServers (src/unnamed/part_002
lines 412-456): on a 2xx response whose body holds at least one well-formed
server, cache the servers with expiry max 30 (ttl - 60) seconds from now
and switch to dynamic mode; on any failure return the env fallback in env
mode, leaving the cache as it was. -/
def resolveFetchPath (fallback : List IceServer) (now : Int) (fetch : FetchResult)
    (st : IceState) : IceState × List IceServer :=
  match fetch with
  | FetchResult.netError =>
    ({ st with currentIceServers := fallback, iceConfigMode := IceConfigMode.env },
     fallback)
  | FetchResult.response ok body =>
    if ok then
      match body with
      | none =>
        ({ st with currentIceServers := fallback, iceConfigMode := IceConfigMode.env },
         fallback)
      | some j =>
        let parsedServers := sanitizeIceServers (jGetField j "iceServers")
        if parsedServers.length = 0 then
          ({ st with currentIceServers := fallback,
                     iceConfigMode := IceConfigMode.env }, fallback)
        else
          let refreshSeconds := max 30 (effectiveTtl j - 60)
          ({ cache := some { servers := parsedServers,
                             expiresAt := now + refreshSeconds * 1000 },
             currentIceServers := parsedServers,
             iceConfigMode := IceConfigMode.dynamic }, parsedServers)
    else
      ({ st with currentIceServers := fallback, iceConfigMode := IceConfigMode.env },
       fallback)

/-- resolveIceServers (src/unnamed/part_002 lines 405-457): a cached entry
more than 15 seconds from expiry is returned as is; otherwise the fetch
path runs. -/
def resolveIceServers (fallback : List IceServer) (now : Int) (fetch : FetchResult)
    (st : IceState) : IceState × List IceServer :=
  match st.cache with
  | some cached =>
    if cached.expiresAt > now + 15000 then (st, cached.servers)
    else resolveFetchPath fallback now fetch st
  | none => resolveFetchPath fallback now fetch st

/-- The delay of the connecting watchdog (src/unnamed/part_002 line 1182). -/
def connectingTimeoutMs : Nat := 12000

/-- Message the watchdog surfaces (src/unnamed/part_002 lines 1179-1181). -/
def stillConnectingMsg : String :=
  "Still connecting. This usually means peer networking is blocked; TURN server is required."

/-- Firing of the connecting watchdog (src/unnamed/part_002 lines
1173-1187): the timer is armed while callStatus is connecting and cleared
on any status change, so it fires only in the connecting state, where it
sets the diagnostic message and nothing else. -/
def connectingTimeoutFire (s : CtrlState) : CtrlState :=
  if s.callStatus = UIStatus.connecting then
    { s with callError := some stillConnectingMsg }
  else s

/-- Number of non-null call slots. -/
def slotCount (s : CtrlState) : Nat :=
  (if s.activeCall.isSome then 1 else 0) + (if s.incomingCall.isSome then 1 else 0)
    + (if s.pendingOutgoingCall.isSome then 1 else 0)

/-- A webrtc-ice envelope from peer to me carrying one candidate. -/
def mkIceSig (callId conv : Nat) (peer me : String) (cand : String) : SignalPayload :=
  { callId := callId, fromId := peer, toId := some me, conversationId := conv,
    sdp := none, candidate := some cand }

/-- A webrtc-answer envelope from peer to me carrying an sdp. -/
def mkAnswerSig (callId conv : Nat) (peer me : String) (sdp : String) : SignalPayload :=
  { callId := callId, fromId := peer, toId := some me, conversationId := conv,
    sdp := some sdp, candidate := none }

/-- Delivery of a sequence of webrtc-ice envelopes, in arrival order. -/
def receiveRemoteIce (me : String) (candOk : String → Bool) (callId conv : Nat)
    (peer : String) (cands : List String) (s : CtrlState) : CtrlState :=
  cands.foldl (fun acc c => onIce me candOk (mkIceSig callId conv peer me c) acc) s

/-! Theorems. -/

/-- C9 (counterexample): in a connecting state, firing the 12-second
watchdog leaves callStatus at connecting (it does not transition to error);
it only sets the diagnostic message. -/
theorem c9_counterexample :
    (connectingTimeoutFire
        { callStatus := UIStatus.connecting, callError := none, activeCall := none,
          incomingCall := none, pendingOutgoingCall := none,
          activeConversationId := some 7, media := initialMedia,
          sentSignals := [] }).callStatus = UIStatus.connecting ∧
      (connectingTimeoutFire
        { callStatus := UIStatus.connecting, callError := none, activeCall := none,
          incomingCall := none, pendingOutgoingCall := none,
          activeConversationId := some 7, media := initialMedia,
          sentSignals := [] }).callStatus ≠ UIStatus.error ∧
      (connectingTimeoutFire
        { callStatus := UIStatus.connecting, callError := none, activeCall := none,
          incomingCall := none, pendingOutgoingCall := none,
          activeConversationId := some 7, media := initialMedia,
          sentSignals := [] }).callError = some stillConnectingMsg := by
  refine ⟨rfl, by decide, rfl⟩

/-- C9 (amended): when the call state has remained connecting for 12
seconds the watchdog fires, setting the diagnostic message while leaving
the call state at connecting; no transition to error happens. -/
theorem c9_timeout_sets_message_only (s : CtrlState)
    (h : s.callStatus = UIStatus.connecting) :
    (connectingTimeoutFire s).callStatus = UIStatus.connecting ∧
      (connectingTimeoutFire s).callError = some stillConnectingMsg ∧
      connectingTimeoutMs = 12000 := by
  simp [connectingTimeoutFire, h, connectingTimeoutMs]

/-- Witness for c9_timeout_sets_message_only at a concrete connecting
state. -/
theorem c9_timeout_sets_message_only_witness :
    (connectingTimeoutFire
        { callStatus := UIStatus.connecting, callError := none, activeCall := none,
          incomingCall := none, pendingOutgoingCall := none,
          activeConversationId := none, media := initialMedia,
          sentSignals := [] }).callStatus = UIStatus.connecting ∧
      (connectingTimeoutFire
        { callStatus := UIStatus.connecting, callError := none, activeCall := none,
          incomingCall := none, pendingOutgoingCall := none,
          activeConversationId := none, media := initialMedia,
          sentSignals := [] }).callError = some stillConnectingMsg ∧
      connectingTimeoutMs = 12000 :=
  c9_timeout_sets_message_only _ rfl

/-- C10: rejecting an incoming call issues an update carrying status
rejected together with accepted_by set to the rejecting (local) user, so on
the resulting row a non-null accepted_by names the party who declined. -/
theorem c10_reject_sets_accepted_by (me : String) (s : CtrlState) (c : ActiveCall)
    (h : s.incomingCall = some c) :
    (rejectIncomingCall me s).2
        = some { rowId := c.id, newStatus := RowStatus.rejected,
                 newAcceptedBy := some (some me) } ∧
      (applyUpdate { rowId := c.id, newStatus := RowStatus.rejected,
                     newAcceptedBy := some (some me) } (rowOfCall c)).status
        = RowStatus.rejected ∧
      (applyUpdate { rowId := c.id, newStatus := RowStatus.rejected,
                     newAcceptedBy := some (some me) } (rowOfCall c)).accepted_by
        = some me := by
  refine ⟨?_, ?_, ?_⟩ <;> simp [rejectIncomingCall, h, applyUpdate, rowOfCall]

/-- Witness for c10_reject_sets_accepted_by: bob declines a pending call
requested by alice; the row ends rejected with accepted_by bob. -/
theorem c10_reject_sets_accepted_by_witness :
    (rejectIncomingCall "bob"
        { callStatus := UIStatus.ringing, callError := none, activeCall := none,
          incomingCall := some { id := 1, conversationId := 7, requesterId := "alice",
                                 acceptedBy := none, status := RowStatus.pending },
          pendingOutgoingCall := none, activeConversationId := some 7,
          media := initialMedia, sentSignals := [] }).2
        = some { rowId := 1, newStatus := RowStatus.rejected,
                 newAcceptedBy := some (some "bob") } ∧
      (applyUpdate { rowId := 1, newStatus := RowStatus.rejected,
                     newAcceptedBy := some (some "bob") }
          (rowOfCall { id := 1, conversationId := 7, requesterId := "alice",
                       acceptedBy := none, status := RowStatus.pending })).status
        = RowStatus.rejected ∧
      (applyUpdate { rowId := 1, newStatus := RowStatus.rejected,
                     newAcceptedBy := some (some "bob") }
          (rowOfCall { id := 1, conversationId := 7, requesterId := "alice",
                       acceptedBy := none, status := RowStatus.pending })).accepted_by
        = some "bob" :=
  c10_reject_sets_accepted_by "bob"
    { callStatus := UIStatus.ringing, callError := none, activeCall := none,
      incomingCall := some { id := 1, conversationId := 7, requesterId := "alice",
                             acceptedBy := none, status := RowStatus.pending },
      pendingOutgoingCall := none, activeConversationId := some 7,
      media := initialMedia, sentSignals := [] }
    { id := 1, conversationId := 7, requesterId := "alice",
      acceptedBy := none, status := RowStatus.pending } rfl

/-- C5 (counterexample): with an unresolved incoming pending call for the
conversation (local state ringing), requestCall still issues the insert to
the persistence layer, so the second call request is not rejected locally. -/
theorem c5_counterexample :
    (requestCall "bob" true 99
        { callStatus := UIStatus.ringing, callError := none, activeCall := none,
          incomingCall := some { id := 1, conversationId := 7, requesterId := "alice",
                                 acceptedBy := none, status := RowStatus.pending },
          pendingOutgoingCall := none, activeConversationId := some 7,
          media := initialMedia, sentSignals := [] }).2
      = some { conversation_id := 7, requester_id := "bob",
               status := RowStatus.pending } := by
  decide

/-- C5 (amended): requestCall is rejected locally, with no insert and no
state change, exactly when the local call state is requesting, connecting
or in-call; the ringing state is not guarded. -/
theorem c5_request_blocked_in_active_states (me : String) (ctxOk : Bool) (newId : Nat)
    (s : CtrlState)
    (h : s.callStatus = UIStatus.connecting ∨ s.callStatus = UIStatus.inCall
          ∨ s.callStatus = UIStatus.requesting) :
    requestCall me ctxOk newId s = (s, none) := by
  unfold requestCall
  split
  · rfl
  · rw [if_pos h]

/-- Witness for c5_request_blocked_in_active_states in an in-call state. -/
theorem c5_request_blocked_in_active_states_witness :
    requestCall "bob" true 5
        { callStatus := UIStatus.inCall, callError := none, activeCall := none,
          incomingCall := none, pendingOutgoingCall := none,
          activeConversationId := some 7, media := initialMedia,
          sentSignals := [] }
      = ({ callStatus := UIStatus.inCall, callError := none, activeCall := none,
           incomingCall := none, pendingOutgoingCall := none,
           activeConversationId := some 7, media := initialMedia,
           sentSignals := [] }, none) :=
  c5_request_blocked_in_active_states "bob" true 5 _ (Or.inr (Or.inl rfl))

/-- C4 (counterexample): in the interleaving where the realtime feed insert
for the server id arrives between the optimistic append and the persistence
response, the reconciliation re-labels the placeholder without dedup and
the list ends with two entries carrying the server-assigned id 42. -/
theorem c4_counterexample :
    countWithId 42 (reconcileSend (-1) 42 (feedInsert 42 "hello"
        (optimisticAppend (-1) "hello" []))) = 2 := by
  decide

/-- C4 (amended): when the persistence response is applied before the feed
insert, the feed insert is deduplicated and the list contains exactly one
entry with the server-assigned id. -/
theorem c4_feed_after_reconcile_dedups (msgs : List ChatMessage) (content : String)
    (optId insId : Int)
    (hopt : ∀ m ∈ msgs, m.id ≠ optId) (hins : ∀ m ∈ msgs, m.id ≠ insId) :
    countWithId insId (feedInsert insId content
        (reconcileSend optId insId (optimisticAppend optId content msgs))) = 1 := by
  have hmap : ∀ l : List ChatMessage, (∀ m ∈ l, m.id ≠ optId) →
      l.map (fun m => if m.id = optId then { m with id := insId } else m) = l := by
    intro l
    induction l with
    | nil => intro _; rfl
    | cons a rest ih =>
      intro hl
      have ha : a.id ≠ optId := hl a (by simp)
      simp only [List.map_cons, if_neg ha]
      rw [ih (fun m hm => hl m (by simp [hm]))]
  have h1 : reconcileSend optId insId (optimisticAppend optId content msgs)
      = msgs ++ [({ id := insId, content := content } : ChatMessage)] := by
    unfold optimisticAppend reconcileSend
    rw [List.map_append, hmap msgs hopt]
    simp
  rw [h1]
  have h2 : ((msgs ++ [({ id := insId, content := content } : ChatMessage)]).any
      (fun m => m.id = insId)) = true := by
    rw [List.any_append]
    simp
  unfold feedInsert
  rw [if_pos h2]
  unfold countWithId
  rw [List.filter_append]
  have h3 : ∀ l : List ChatMessage, (∀ m ∈ l, m.id ≠ insId) →
      l.filter (fun m => decide (m.id = insId)) = [] := by
    intro l
    induction l with
    | nil => intro _; rfl
    | cons a rest ih =>
      intro hl
      have ha : a.id ≠ insId := hl a (by simp)
      simp only [List.filter_cons, decide_eq_true_eq, if_neg ha]
      exact ih (fun m hm => hl m (by simp [hm]))
  rw [h3 msgs hins]
  simp

/-- Witness for c4_feed_after_reconcile_dedups on the scenario of the spec:
optimistic id -1, server id 42, an empty prior list. -/
theorem c4_feed_after_reconcile_dedups_witness :
    countWithId 42 (feedInsert 42 "hello"
        (reconcileSend (-1) 42 (optimisticAppend (-1) "hello" []))) = 1 :=
  c4_feed_after_reconcile_dedups [] "hello" (-1) 42 (by intro m hm; cases hm)
    (by intro m hm; cases hm)

/-- startCallerHandshake never changes the call slots or the active
conversation: it only touches media, callStatus, callError and the sent
signal log. -/
theorem startCallerHandshake_slots (me : String) (mediaOk : Bool) (call : ActiveCall)
    (s : CtrlState) :
    (startCallerHandshake me mediaOk call s).activeCall = s.activeCall ∧
      (startCallerHandshake me mediaOk call s).incomingCall = s.incomingCall ∧
      (startCallerHandshake me mediaOk call s).pendingOutgoingCall
        = s.pendingOutgoingCall ∧
      (startCallerHandshake me mediaOk call s).activeConversationId
        = s.activeConversationId := by
  unfold startCallerHandshake
  cases hab : call.acceptedBy with
  | none => exact ⟨rfl, rfl, rfl, rfl⟩
  | some cb =>
    simp only []
    split
    · exact ⟨rfl, rfl, rfl, rfl⟩
    · split
      · exact ⟨rfl, rfl, rfl, rfl⟩
      · exact ⟨rfl, rfl, rfl, rfl⟩

/-- C1 (counterexample): after bob processes a pending notification for a
call requested by alice in conversation 7 and then a pending notification
for a call he requested in the same conversation, both incomingCall and
pendingOutgoingCall are non-null for conversation 7: the second handler set
pendingOutgoingCall without clearing incomingCall. -/
theorem c1_counterexample :
    (handleCallChange "bob" true
        { id := some 2, conversation_id := some 7, requester_id := some "bob",
          accepted_by := none, status := some RowStatus.pending }
        (handleCallChange "bob" true
          { id := some 1, conversation_id := some 7, requester_id := some "alice",
            accepted_by := none, status := some RowStatus.pending }
          initialCtrlState)).incomingCall
      = some { id := 1, conversationId := 7, requesterId := "alice",
               acceptedBy := none, status := RowStatus.pending } ∧
    (handleCallChange "bob" true
        { id := some 2, conversation_id := some 7, requester_id := some "bob",
          accepted_by := none, status := some RowStatus.pending }
        (handleCallChange "bob" true
          { id := some 1, conversation_id := some 7, requester_id := some "alice",
            accepted_by := none, status := some RowStatus.pending }
          initialCtrlState)).pendingOutgoingCall
      = some { id := 2, conversationId := 7, requesterId := "bob",
               acceptedBy := none, status := RowStatus.pending } := by
  decide

/-- C1 (amended): a single call-change handler run from a state in which
all three slots are empty leaves at most one slot non-null; the mutual
exclusion is not maintained across handlers because the pending-status
branch does not clear the other two slots. -/
theorem c1_single_handler_from_empty (me : String) (mediaOk : Bool) (raw : RawCallRow)
    (s : CtrlState) (ha : s.activeCall = none) (hi : s.incomingCall = none)
    (hp : s.pendingOutgoingCall = none) :
    slotCount (handleCallChange me mediaOk raw s) ≤ 1 := by
  obtain ⟨cs, ce, ac, ic, pc, acid, med, sig⟩ := s
  simp only [] at ha hi hp
  subst ha hi hp
  unfold handleCallChange
  cases hn : normalizeCall raw with
  | none => simp [slotCount]
  | some call =>
    simp only []
    cases hst : call.status with
    | pending =>
      by_cases hreq : call.requesterId = me
      · simp [hreq, slotCount]
      · simp [hreq, slotCount]
    | accepted =>
      cases hab : call.acceptedBy with
      | none => simp [slotCount]
      | some cb =>
        simp only []
        by_cases hreq : call.requesterId = me
        · simp only [if_pos hreq]
          split
          · rcases startCallerHandshake_slots me mediaOk call
              { callStatus := cs, callError := none, activeCall := some call,
                incomingCall := none, pendingOutgoingCall := none,
                activeConversationId := some call.conversationId, media := med,
                sentSignals := sig } with ⟨h1, h2, h3, _⟩
            simp [slotCount, h1, h2, h3]
          · simp [slotCount]
        · by_cases hcb : cb = me
          · simp [hreq, hcb, slotCount]
          · simp [hreq, hcb, slotCount]
    | rejected => simp [slotCount, slotHasId]
    | ended => simp [slotCount, slotHasId]
    | cancelled => simp [slotCount, slotHasId]

/-- Witness for c1_single_handler_from_empty: the first pending
notification processed from the initial state leaves exactly the incoming
slot set. -/
theorem c1_single_handler_from_empty_witness :
    slotCount (handleCallChange "bob" true
        { id := some 1, conversation_id := some 7, requester_id := some "alice",
          accepted_by := none, status := some RowStatus.pending }
        initialCtrlState) ≤ 1 :=
  c1_single_handler_from_empty "bob" true _ initialCtrlState rfl rfl rfl

/-- C3 (counterexample): invoking endCall from the ringing state (only an
incoming pending call requested by the peer) issues the update status =
ended on a pending record, a transition outside the allowed graph. -/
theorem c3_counterexample :
    (endCall "bob" none
        { callStatus := UIStatus.ringing, callError := none, activeCall := none,
          incomingCall := some { id := 1, conversationId := 7, requesterId := "alice",
                                 acceptedBy := none, status := RowStatus.pending },
          pendingOutgoingCall := none, activeConversationId := some 7,
          media := initialMedia, sentSignals := [] }).2
      = some { rowId := 1, newStatus := RowStatus.ended, newAcceptedBy := none } ∧
    allowedTransition RowStatus.pending RowStatus.ended = false := by
  exact ⟨by decide, rfl⟩

/-- C3 (amended): given the slot shapes the controller maintains (incoming
calls pending, not requested by me, with no acceptor; outgoing pending
calls requested by me; active calls accepted), accept issues
pending-to-accepted, reject issues pending-to-rejected, and end issues a
graph transition except when invoked from the ringing state, where it
issues pending-to-ended; that one update is rejected by the row update
policy, since the callee is neither the requester nor the acceptor of the
row it targets. -/
theorem c3_transitions (me : String) (s : CtrlState)
    (hInc : ∀ c, s.incomingCall = some c →
      c.status = RowStatus.pending ∧ c.requesterId ≠ me ∧ c.acceptedBy = none)
    (hOut : ∀ c, s.pendingOutgoingCall = some c →
      c.status = RowStatus.pending ∧ c.requesterId = me)
    (hAct : ∀ c, s.activeCall = some c → c.status = RowStatus.accepted) :
    (∀ u c, s.incomingCall = some c → (acceptIncomingCall me s).2 = some u →
      allowedTransition c.status u.newStatus = true) ∧
    (∀ u c, s.incomingCall = some c → (rejectIncomingCall me s).2 = some u →
      allowedTransition c.status u.newStatus = true) ∧
    (∀ u c (dbError : Option String), currentCallOf s = some c →
      (endCall me dbError s).2 = some u →
      allowedTransition c.status u.newStatus = true ∨
        (c.status = RowStatus.pending ∧ u.newStatus = RowStatus.ended ∧
         updatePolicyAllows me (rowOfCall c) (applyUpdate u (rowOfCall c)) = false)) := by
  refine ⟨?_, ?_, ?_⟩
  · intro u c hc hu
    rw [acceptIncomingCall, hc] at hu
    simp only [Option.some.injEq] at hu
    subst hu
    rw [(hInc c hc).1]
    rfl
  · intro u c hc hu
    rw [rejectIncomingCall, hc] at hu
    simp only [Option.some.injEq] at hu
    subst hu
    rw [(hInc c hc).1]
    rfl
  · intro u c dbe hc hu
    rw [endCall] at hu
    rw [hc] at hu
    simp only [Option.some.injEq] at hu
    subst hu
    unfold currentCallOf at hc
    cases hac : s.activeCall with
    | some a =>
      rw [hac] at hc
      simp only [Option.orElse] at hc
      cases hc
      have hstat := hAct c hac
      left
      simp [hstat, allowedTransition]
    | none =>
      rw [hac] at hc
      cases hpo : s.pendingOutgoingCall with
      | some p =>
        rw [hpo] at hc
        simp only [Option.orElse] at hc
        cases hc
        obtain ⟨hpend, hreq⟩ := hOut c hpo
        left
        simp [hpend, hreq, allowedTransition]
      | none =>
        rw [hpo] at hc
        cases hic : s.incomingCall with
        | some i =>
          rw [hic] at hc
          simp only [Option.orElse] at hc
          cases hc
          obtain ⟨hpend, hne, hacc⟩ := hInc c hic
          right
          refine ⟨hpend, ?_, ?_⟩
          · rw [if_neg (fun h => hne h.2)]
          · simp [updatePolicyAllows, applyUpdate, rowOfCall, hacc, Ne.symm hne]
        | none =>
          rw [hic] at hc
          simp only [Option.orElse] at hc
          cases hc

/-- Witness for c3_transitions: bob accepting a pending incoming call from
alice issues the graph transition pending to accepted. -/
theorem c3_transitions_witness :
    allowedTransition
        ({ id := 1, conversationId := 7, requesterId := "alice",
           acceptedBy := none, status := RowStatus.pending } : ActiveCall).status
        ({ rowId := 1, newStatus := RowStatus.accepted,
           newAcceptedBy := some (some "bob") } : UpdateRequest).newStatus = true :=
  (c3_transitions "bob"
      { callStatus := UIStatus.ringing, callError := none, activeCall := none,
        incomingCall := some { id := 1, conversationId := 7, requesterId := "alice",
                               acceptedBy := none, status := RowStatus.pending },
        pendingOutgoingCall := none, activeConversationId := some 7,
        media := initialMedia, sentSignals := [] }
      (by intro c hc; injection hc with hc; subst hc; exact ⟨rfl, by decide, rfl⟩)
      (by intro c hc; cases hc)
      (by intro c hc; cases hc)).1
    { rowId := 1, newStatus := RowStatus.accepted, newAcceptedBy := some (some "bob") }
    { id := 1, conversationId := 7, requesterId := "alice",
      acceptedBy := none, status := RowStatus.pending } rfl (by decide)

/-- Folding addIceCandidateTry over a list applies exactly the accepted
candidates, in list order, to the session. -/
theorem foldl_addIce (candOk : String → Bool) (qs : List String) :
    ∀ (m : MediaState) (sess : Session), m.session = some sess →
      qs.foldl (fun acc c => addIceCandidateTry candOk c acc) m
        = { m with session := some { sess with appliedCandidates :=
              sess.appliedCandidates ++ qs.filter candOk } } := by
  induction qs with
  | nil =>
    intro m sess h
    obtain ⟨msess, mq, mg, ml, mr, mm, mn⟩ := m
    simp only [] at h
    subst h
    simp
  | cons c rest ih =>
    intro m sess h
    rw [List.foldl_cons]
    by_cases hc : candOk c
    · have hstep : addIceCandidateTry candOk c m
          = { m with session := some { sess with appliedCandidates :=
                sess.appliedCandidates ++ [c] } } := by
        simp [addIceCandidateTry, h, hc]
      rw [hstep, ih _ { sess with appliedCandidates := sess.appliedCandidates ++ [c] } rfl]
      simp [List.filter_cons, hc, List.append_assoc]
    · have hstep : addIceCandidateTry candOk c m = { m with session := some sess } := by
        simp [addIceCandidateTry, h, hc]
      rw [hstep, ih _ sess rfl]
      simp [List.filter_cons, hc]

/-- flushPendingRemoteCandidates with a session holding a remote
description: the queue is emptied and exactly its accepted candidates are
applied, in arrival order, after the candidates already applied. -/
theorem flush_spec (candOk : String → Bool) (m : MediaState) (sess : Session)
    (h : m.session = some sess) (hr : sess.remoteDescription.isSome = true) :
    flushPendingRemoteCandidates candOk m
      = { m with pendingRemoteCandidates := [],
                 session := some { sess with appliedCandidates :=
                   sess.appliedCandidates
                     ++ m.pendingRemoteCandidates.filter candOk } } := by
  unfold flushPendingRemoteCandidates
  rw [h]
  simp only []
  have hnn : ¬ sess.remoteDescription.isNone = true := by
    cases hx : sess.remoteDescription with
    | none => rw [hx] at hr; cases hr
    | some v => simp [hx]
  rw [if_neg hnn]
  by_cases hq : m.pendingRemoteCandidates = []
  · rw [if_pos hq]
    obtain ⟨msess, mq, mg, ml, mr, mm, mn⟩ := m
    simp only [] at h hq
    subst h hq
    simp
  · rw [if_neg hq]
    rw [foldl_addIce candOk m.pendingRemoteCandidates
      { session := some sess, pendingRemoteCandidates := [],
        handshakeStartedFor := m.handshakeStartedFor, localStream := m.localStream,
        remoteStream := m.remoteStream, isMicMuted := m.isMicMuted,
        nextGen := m.nextGen } sess rfl]

/-- A webrtc-ice envelope delivered while a session exists but no remote
description is set appends its candidate to the queue and changes nothing
else. -/
theorem onIce_queues (me : String) (candOk : String → Bool) (callId conv : Nat)
    (peer c : String) (s : CtrlState) (sess : Session)
    (h : s.media.session = some sess) (hr : sess.remoteDescription = none) :
    onIce me candOk (mkIceSig callId conv peer me c) s
      = { s with media := { s.media with pendingRemoteCandidates :=
            s.media.pendingRemoteCandidates ++ [c] } } := by
  unfold onIce mkIceSig sigAddressedElsewhere
  rw [h]
  simp [hr]

/-- Delivering a list of webrtc-ice envelopes while a session exists with
no remote description queues the candidates in arrival order. -/
theorem receiveRemoteIce_spec (me : String) (candOk : String → Bool) (callId conv : Nat)
    (peer : String) (cands : List String) :
    ∀ (s : CtrlState) (sess : Session), s.media.session = some sess →
      sess.remoteDescription = none →
      receiveRemoteIce me candOk callId conv peer cands s
        = { s with media := { s.media with pendingRemoteCandidates :=
              s.media.pendingRemoteCandidates ++ cands } } := by
  induction cands with
  | nil =>
    intro s sess h hr
    obtain ⟨cs, ce, ac, ic, pc, acid, med, sig⟩ := s
    obtain ⟨msess, mq, mg, ml, mr, mm, mn⟩ := med
    simp [receiveRemoteIce]
  | cons c rest ih =>
    intro s sess h hr
    unfold receiveRemoteIce
    rw [List.foldl_cons]
    have h2 : ({ s with media := { s.media with pendingRemoteCandidates :=
        s.media.pendingRemoteCandidates ++ [c] } } : CtrlState).media.session
        = some sess := h
    have hrest := ih { s with media := { s.media with pendingRemoteCandidates :=
        s.media.pendingRemoteCandidates ++ [c] } } sess h2 hr
    unfold receiveRemoteIce at hrest
    rw [onIce_queues me candOk callId conv peer c s sess h hr]
    rw [hrest]
    simp [List.append_assoc]

/-- A webrtc-answer envelope addressed to me with an sdp, applied with an
existing session: the sdp becomes the remote description, the queue is
drained and its accepted candidates are applied in arrival order. -/
theorem onAnswer_spec (me : String) (candOk : String → Bool) (sig : SignalPayload)
    (sdp : String) (s : CtrlState) (sess : Session)
    (haddr : sigAddressedElsewhere me sig = false) (hsdp : sig.sdp = some sdp)
    (h : s.media.session = some sess) :
    onAnswer me candOk sig s
      = { s with media :=
            { s.media with
              pendingRemoteCandidates := [],
              session := some { sess with
                                remoteDescription := some sdp,
                                appliedCandidates := sess.appliedCandidates
                                  ++ s.media.pendingRemoteCandidates.filter candOk } } } := by
  unfold onAnswer
  rw [haddr, hsdp, h]
  rw [if_neg (by simp)]
  show ({ s with media :=
    flushPendingRemoteCandidates candOk (setRemoteDescription sdp s.media) } : CtrlState) = _
  rw [flush_spec candOk (setRemoteDescription sdp s.media)
      { sess with remoteDescription := some sdp }
      (by simp [setRemoteDescription, h]) (by simp)]
  simp [setRemoteDescription, h]

/-- C6 (counterexample): a webrtc-ice envelope received before any peer
connection exists is dropped, not queued: the handler leaves the state
unchanged and the queue stays empty, although no remote description is set
yet. -/
theorem c6_counterexample :
    onIce "bob" (fun _ => true) (mkIceSig 1 7 "alice" "bob" "cand-1")
        initialCtrlState
      = initialCtrlState ∧
      (onIce "bob" (fun _ => true) (mkIceSig 1 7 "alice" "bob" "cand-1")
        initialCtrlState).media.pendingRemoteCandidates = [] := by
  exact ⟨rfl, rfl⟩

/-- C6 (amended): once a session exists, ICE candidates received before its
remote description is set are queued in arrival order and, when the remote
description is set (here by the webrtc-answer handler), applied in that
order; a candidate whose application fails is skipped without aborting the
flush, so every later accepted candidate is still applied and the queue is
drained. -/
theorem c6_buffered_candidates (me peer : String) (candOk : String → Bool)
    (callId conv : Nat) (cands : List String) (sdp : String)
    (s : CtrlState) (sess : Session)
    (h : s.media.session = some sess) (hr : sess.remoteDescription = none)
    (hq : s.media.pendingRemoteCandidates = []) :
    (receiveRemoteIce me candOk callId conv peer cands s).media.pendingRemoteCandidates
        = cands ∧
      (onAnswer me candOk (mkAnswerSig callId conv peer me sdp)
          (receiveRemoteIce me candOk callId conv peer cands s)).media.session
        = some { sess with
                 remoteDescription := some sdp,
                 appliedCandidates := sess.appliedCandidates ++ cands.filter candOk } ∧
      (onAnswer me candOk (mkAnswerSig callId conv peer me sdp)
          (receiveRemoteIce me candOk callId conv peer cands s)).media.pendingRemoteCandidates
        = [] ∧
      (∀ c ∈ cands, candOk c = true →
        c ∈ sess.appliedCandidates ++ cands.filter candOk) := by
  have hrec := receiveRemoteIce_spec me candOk callId conv peer cands s sess h hr
  have h2 : (receiveRemoteIce me candOk callId conv peer cands s).media.session
      = some sess := by rw [hrec]; exact h
  have hans := onAnswer_spec me candOk (mkAnswerSig callId conv peer me sdp) sdp
    (receiveRemoteIce me candOk callId conv peer cands s) sess
    (by simp [mkAnswerSig, sigAddressedElsewhere]) rfl h2
  refine ⟨?_, ?_, ?_, ?_⟩
  · rw [hrec]
    simp [hq]
  · rw [hans, hrec]
    simp [hq]
  · rw [hans]
  · intro c hc hok
    exact List.mem_append_right _ (List.mem_filter.mpr ⟨hc, hok⟩)

/-- Witness for c6_buffered_candidates: three candidates are queued while
an offerless session waits; the middle one is rejected by the connection
and the flush still applies the first and third in order. -/
theorem c6_buffered_candidates_witness :
    (receiveRemoteIce "bob" (fun c => decide (c ≠ "bad")) 1 7 "alice"
        ["a", "bad", "b"]
        { initialCtrlState with media := { initialMedia with
            session := some { gen := 0, remoteDescription := none,
                              localDescription := none,
                              appliedCandidates := [] } } }).media.pendingRemoteCandidates
        = ["a", "bad", "b"] ∧
      (onAnswer "bob" (fun c => decide (c ≠ "bad")) (mkAnswerSig 1 7 "alice" "bob" "sdp")
          (receiveRemoteIce "bob" (fun c => decide (c ≠ "bad")) 1 7 "alice"
            ["a", "bad", "b"]
            { initialCtrlState with media := { initialMedia with
                session := some { gen := 0, remoteDescription := none,
                                  localDescription := none,
                                  appliedCandidates := [] } } })).media.session
        = some { gen := 0, remoteDescription := some "sdp",
                 localDescription := none,
                 appliedCandidates := [] ++ (["a", "bad", "b"].filter
                   (fun c => decide (c ≠ "bad"))) } ∧
      (onAnswer "bob" (fun c => decide (c ≠ "bad")) (mkAnswerSig 1 7 "alice" "bob" "sdp")
          (receiveRemoteIce "bob" (fun c => decide (c ≠ "bad")) 1 7 "alice"
            ["a", "bad", "b"]
            { initialCtrlState with media := { initialMedia with
                session := some { gen := 0, remoteDescription := none,
                                  localDescription := none,
                                  appliedCandidates := [] } } })).media.pendingRemoteCandidates
        = [] ∧
      (∀ c ∈ ["a", "bad", "b"], (fun c => decide (c ≠ "bad")) c = true →
        c ∈ ([] : List String) ++ (["a", "bad", "b"].filter
          (fun c => decide (c ≠ "bad")))) :=
  c6_buffered_candidates "bob" "alice" (fun c => decide (c ≠ "bad")) 1 7
    ["a", "bad", "b"] "sdp" _
    { gen := 0, remoteDescription := none, localDescription := none,
      appliedCandidates := [] } rfl rfl rfl

/-- C7 (counterexample): when the persistence update fails, endCall
surfaces the error and performs no teardown: the session, the local
stream, the queued candidates, the handshake guard and the active slot all
survive, so ending a call does not always perform full teardown. -/
theorem c7_counterexample :
    (endCall "bob" (some "update failed")
        { callStatus := UIStatus.inCall, callError := none,
          activeCall := some { id := 3, conversationId := 7, requesterId := "alice",
                               acceptedBy := some "bob", status := RowStatus.accepted },
          incomingCall := none, pendingOutgoingCall := none,
          activeConversationId := some 7,
          media := { session := some { gen := 0, remoteDescription := some "r",
                                       localDescription := some "l",
                                       appliedCandidates := ["a"] },
                     pendingRemoteCandidates := ["b"],
                     handshakeStartedFor := some 3, localStream := some (),
                     remoteStream := some (), isMicMuted := true, nextGen := 1 },
          sentSignals := [] }).1
      = { callStatus := UIStatus.error, callError := some "update failed",
          activeCall := some { id := 3, conversationId := 7, requesterId := "alice",
                               acceptedBy := some "bob", status := RowStatus.accepted },
          incomingCall := none, pendingOutgoingCall := none,
          activeConversationId := some 7,
          media := { session := some { gen := 0, remoteDescription := some "r",
                                       localDescription := some "l",
                                       appliedCandidates := ["a"] },
                     pendingRemoteCandidates := ["b"],
                     handshakeStartedFor := some 3, localStream := some (),
                     remoteStream := some (), isMicMuted := true, nextGen := 1 },
          sentSignals := [] } := by
  rfl

/-- C7 (amended): the teardown itself, resetCallMedia, is safe from any
media state, session or not (it closes the session, drops the queued
candidates, clears the handshake guard and stops both streams), and
running it twice equals running it once; endCall with a current call
performs that full teardown and returns every slot to idle when the
persistence update succeeds; when the update fails it surfaces the error
and leaves media and slots untouched (no teardown); and endCall with no
current call is a safe no-op. -/
theorem c7_teardown_safe :
    (∀ m : MediaState, (resetCallMedia m).session = none ∧
        (resetCallMedia m).pendingRemoteCandidates = [] ∧
        (resetCallMedia m).handshakeStartedFor = none ∧
        (resetCallMedia m).localStream = none ∧
        (resetCallMedia m).remoteStream = none ∧
        (resetCallMedia m).isMicMuted = false) ∧
    (∀ m : MediaState, resetCallMedia (resetCallMedia m) = resetCallMedia m) ∧
    (∀ (me : String) (s : CtrlState) (c : ActiveCall), currentCallOf s = some c →
        (endCall me none s).1.media = resetCallMedia s.media ∧
        (endCall me none s).1.activeCall = none ∧
        (endCall me none s).1.incomingCall = none ∧
        (endCall me none s).1.pendingOutgoingCall = none ∧
        (endCall me none s).1.callStatus = UIStatus.idle) ∧
    (∀ (me msg : String) (s : CtrlState) (c : ActiveCall), currentCallOf s = some c →
        (endCall me (some msg) s).1
          = { s with callStatus := UIStatus.error, callError := some msg }) ∧
    (∀ (me : String) (dbError : Option String) (s : CtrlState),
        currentCallOf s = none → endCall me dbError s = (s, none)) := by
  refine ⟨?_, ?_, ?_, ?_, ?_⟩
  · intro m
    exact ⟨rfl, rfl, rfl, rfl, rfl, rfl⟩
  · intro m
    rfl
  · intro me s c hc
    unfold endCall
    rw [hc]
    simp only []
    split
    · exact ⟨rfl, trivial, trivial, trivial, trivial⟩
    · exact ⟨rfl, trivial, trivial, trivial, trivial⟩
  · intro me msg s c hc
    unfold endCall
    rw [hc]
  · intro me dbe s hc
    unfold endCall
    rw [hc]

/-- Witness for c7_teardown_safe: ending an accepted active call with a
successful update tears everything down, and endCall in the initial state
is a no-op. -/
theorem c7_teardown_safe_witness :
    ((endCall "bob" none
        { callStatus := UIStatus.inCall, callError := none,
          activeCall := some { id := 3, conversationId := 7, requesterId := "alice",
                               acceptedBy := some "bob", status := RowStatus.accepted },
          incomingCall := none, pendingOutgoingCall := none,
          activeConversationId := some 7,
          media := { session := some { gen := 0, remoteDescription := some "r",
                                       localDescription := some "l",
                                       appliedCandidates := ["a"] },
                     pendingRemoteCandidates := ["b"],
                     handshakeStartedFor := some 3, localStream := some (),
                     remoteStream := some (), isMicMuted := true, nextGen := 1 },
          sentSignals := [] }).1.media
      = resetCallMedia
          { session := some { gen := 0, remoteDescription := some "r",
                              localDescription := some "l",
                              appliedCandidates := ["a"] },
            pendingRemoteCandidates := ["b"],
            handshakeStartedFor := some 3, localStream := some (),
            remoteStream := some (), isMicMuted := true, nextGen := 1 }) ∧
      endCall "bob" none initialCtrlState = (initialCtrlState, none) :=
  ⟨((c7_teardown_safe.2.2.1 "bob"
      { callStatus := UIStatus.inCall, callError := none,
        activeCall := some { id := 3, conversationId := 7, requesterId := "alice",
                             acceptedBy := some "bob", status := RowStatus.accepted },
        incomingCall := none, pendingOutgoingCall := none,
        activeConversationId := some 7,
        media := { session := some { gen := 0, remoteDescription := some "r",
                                     localDescription := some "l",
                                     appliedCandidates := ["a"] },
                   pendingRemoteCandidates := ["b"],
                   handshakeStartedFor := some 3, localStream := some (),
                   remoteStream := some (), isMicMuted := true, nextGen := 1 },
        sentSignals := [] }
      { id := 3, conversationId := 7, requesterId := "alice",
        acceptedBy := some "bob", status := RowStatus.accepted } rfl)).1,
   c7_teardown_safe.2.2.2.2 "bob" none initialCtrlState rfl⟩

/-- The non-cache path of the resolver on a 2xx response with at least one
well-formed server entry: the servers are cached with expiry max 30
(ttl - 60) seconds after now and returned in dynamic mode. -/
theorem resolveFetchPath_success (fallback : List IceServer) (now : Int) (j : JVal)
    (st : IceState) (hne : sanitizeIceServers (jGetField j "iceServers") ≠ []) :
    resolveFetchPath fallback now (FetchResult.response true (some j)) st
      = ({ cache := some { servers := sanitizeIceServers (jGetField j "iceServers"),
                           expiresAt := now + (max 30 (effectiveTtl j - 60)) * 1000 },
           currentIceServers := sanitizeIceServers (jGetField j "iceServers"),
           iceConfigMode := IceConfigMode.dynamic },
         sanitizeIceServers (jGetField j "iceServers")) := by
  unfold resolveFetchPath
  simp only [if_true]
  rw [if_neg (fun hz => hne (List.length_eq_zero.mp hz))]

/-- The non-cache path of the resolver on any failure: the fallback list is
returned in env mode and the cache is untouched. -/
theorem resolveFetchPath_failure (fallback : List IceServer) (now : Int)
    (fetch : FetchResult) (st : IceState)
    (hf : fetch = FetchResult.netError
      ∨ (∃ b, fetch = FetchResult.response false b)
      ∨ fetch = FetchResult.response true none
      ∨ (∃ j, fetch = FetchResult.response true (some j)
          ∧ sanitizeIceServers (jGetField j "iceServers") = [])) :
    resolveFetchPath fallback now fetch st
      = ({ st with currentIceServers := fallback,
                   iceConfigMode := IceConfigMode.env }, fallback) := by
  rcases hf with hf | ⟨b, hf⟩ | hf | ⟨j, hf, hz⟩
  · subst hf; rfl
  · subst hf
    unfold resolveFetchPath
    simp
  · subst hf; rfl
  · subst hf
    unfold resolveFetchPath
    simp only [if_true]
    rw [if_pos (by rw [hz]; rfl)]

/-- C8: a cached configuration more than 15 seconds from expiry is returned
without consulting the fetch at all; with a stale or missing cache, a 2xx
response holding at least one well-formed server entry is cached with
expiry max 30 (ttl - 60) seconds from now (the ttl defaulting to 600 when
absent or non-positive, inside effectiveTtl) and returned in dynamic mode;
any fetch, parse or validation failure (network error, non-2xx, unparsable
body, empty or invalid iceServers) yields the fallback list in env mode;
and with the env override unset that fallback is the static STUN-only
list, carrying no TURN relay. -/
theorem c8_resolve_ice (env : EnvIceSetting) (now : Int) (st : IceState)
    (fetch : FetchResult) :
    (∀ cached, st.cache = some cached → cached.expiresAt > now + 15000 →
      resolveIceServers (parseIceServers env) now fetch st = (st, cached.servers)) ∧
    (∀ j, (∀ cached, st.cache = some cached → ¬ cached.expiresAt > now + 15000) →
      fetch = FetchResult.response true (some j) →
      sanitizeIceServers (jGetField j "iceServers") ≠ [] →
      resolveIceServers (parseIceServers env) now fetch st
        = ({ cache := some { servers := sanitizeIceServers (jGetField j "iceServers"),
                             expiresAt := now + (max 30 (effectiveTtl j - 60)) * 1000 },
             currentIceServers := sanitizeIceServers (jGetField j "iceServers"),
             iceConfigMode := IceConfigMode.dynamic },
           sanitizeIceServers (jGetField j "iceServers"))) ∧
    ((∀ cached, st.cache = some cached → ¬ cached.expiresAt > now + 15000) →
      (fetch = FetchResult.netError
        ∨ (∃ b, fetch = FetchResult.response false b)
        ∨ fetch = FetchResult.response true none
        ∨ (∃ j, fetch = FetchResult.response true (some j)
            ∧ sanitizeIceServers (jGetField j "iceServers") = [])) →
      resolveIceServers (parseIceServers env) now fetch st
        = ({ st with currentIceServers := parseIceServers env,
                     iceConfigMode := IceConfigMode.env }, parseIceServers env)) ∧
    (env = EnvIceSetting.blank →
      parseIceServers env = defaultIceServers
        ∧ hasTurnServer (parseIceServers env) = false) := by
  refine ⟨?_, ?_, ?_, ?_⟩
  · intro cached h hgt
    unfold resolveIceServers
    rw [h]
    simp only []
    rw [if_pos hgt]
  · intro j hstale hf hne
    subst hf
    unfold resolveIceServers
    cases hc : st.cache with
    | none => exact resolveFetchPath_success (parseIceServers env) now j st hne
    | some cached =>
      simp only []
      rw [if_neg (hstale cached hc)]
      exact resolveFetchPath_success (parseIceServers env) now j st hne
  · intro hstale hf
    unfold resolveIceServers
    cases hc : st.cache with
    | none =>
      show resolveFetchPath (parseIceServers env) now fetch st = _
      rw [resolveFetchPath_failure (parseIceServers env) now fetch st hf, hc]
    | some cached =>
      simp only []
      rw [if_neg (hstale cached hc)]
      rw [resolveFetchPath_failure (parseIceServers env) now fetch st hf, hc]
  · intro h
    subst h
    exact ⟨rfl, by decide⟩

/-- Witness for c8_resolve_ice: with no cache, a 2xx response carrying one
TURN entry and ttl 600 is cached with expiry 540 seconds after now = 1000
and returned in dynamic mode; and the blank-env fallback is the STUN-only
default. -/
theorem c8_resolve_ice_witness :
    resolveIceServers (parseIceServers EnvIceSetting.blank) 1000
        (FetchResult.response true (some (JVal.jobj
          [("iceServers", JVal.jarr [JVal.jobj
              [("urls", JVal.jstr "turn:relay.example.org"),
               ("username", JVal.jstr "u"), ("credential", JVal.jstr "c")]]),
           ("ttlSeconds", JVal.jnum 600)])))
        { cache := none, currentIceServers := defaultIceServers,
          iceConfigMode := IceConfigMode.env }
      = ({ cache := some { servers := [{ urls := UrlsVal.single "turn:relay.example.org",
                                         username := some "u", credential := some "c" }],
                           expiresAt := 541000 },
           currentIceServers := [{ urls := UrlsVal.single "turn:relay.example.org",
                                   username := some "u", credential := some "c" }],
           iceConfigMode := IceConfigMode.dynamic },
         [{ urls := UrlsVal.single "turn:relay.example.org",
            username := some "u", credential := some "c" }]) ∧
      parseIceServers EnvIceSetting.blank = defaultIceServers ∧
      hasTurnServer (parseIceServers EnvIceSetting.blank) = false := by
  refine ⟨?_, (c8_resolve_ice EnvIceSetting.blank 1000
    { cache := none, currentIceServers := defaultIceServers,
      iceConfigMode := IceConfigMode.env } FetchResult.netError).2.2.2 rfl⟩
  exact (c8_resolve_ice EnvIceSetting.blank 1000
      { cache := none, currentIceServers := defaultIceServers,
        iceConfigMode := IceConfigMode.env }
      (FetchResult.response true (some (JVal.jobj
        [("iceServers", JVal.jarr [JVal.jobj
            [("urls", JVal.jstr "turn:relay.example.org"),
             ("username", JVal.jstr "u"), ("credential", JVal.jstr "c")]]),
         ("ttlSeconds", JVal.jnum 600)])))).2.1
    (JVal.jobj
      [("iceServers", JVal.jarr [JVal.jobj
          [("urls", JVal.jstr "turn:relay.example.org"),
           ("username", JVal.jstr "u"), ("credential", JVal.jstr "c")]]),
       ("ttlSeconds", JVal.jnum 600)])
    (by intro cached h; cases h) rfl (by decide)

/-- Flushing with an empty queue changes nothing. -/
theorem flush_empty (candOk : String → Bool) (m : MediaState)
    (h : m.pendingRemoteCandidates = []) :
    flushPendingRemoteCandidates candOk m = m := by
  unfold flushPendingRemoteCandidates
  cases hs : m.session with
  | none => rfl
  | some sess => simp [h]

/-- The call-ended broadcast handler is idempotent: the first delivery
clears every slot, so a duplicate finds no related call. -/
theorem onCallEnded_idem (sig : SignalPayload) (s : CtrlState) :
    onCallEnded sig (onCallEnded sig s) = onCallEnded sig s := by
  unfold onCallEnded
  by_cases hrel : (slotHasId s.activeCall sig.callId
      || slotHasId s.incomingCall sig.callId
      || slotHasId s.pendingOutgoingCall sig.callId) = true
  · rw [if_pos hrel]
    simp [slotHasId]
  · rw [if_neg hrel, if_neg hrel]

/-- The webrtc-answer broadcast handler is idempotent: a duplicate answer
re-applies the same remote description to an already drained queue. -/
theorem onAnswer_idem (me : String) (candOk : String → Bool) (sig : SignalPayload)
    (s : CtrlState) :
    onAnswer me candOk sig (onAnswer me candOk sig s) = onAnswer me candOk sig s := by
  have hnoop : ∀ t : CtrlState, sigAddressedElsewhere me sig = true
      ∨ sig.sdp = none ∨ t.media.session = none → onAnswer me candOk sig t = t := by
    intro t ht
    unfold onAnswer
    rcases ht with ht | ht | ht
    · rw [if_pos ht]
    · rw [ht]
      simp
    · rw [ht]
      by_cases ha : sigAddressedElsewhere me sig = true
      · rw [if_pos ha]
      · rw [if_neg ha]
        cases sig.sdp <;> rfl
  by_cases haddr : sigAddressedElsewhere me sig = true
  · rw [hnoop s (Or.inl haddr), hnoop s (Or.inl haddr)]
  · rw [Bool.not_eq_true] at haddr
    cases hsdp : sig.sdp with
    | none => rw [hnoop s (Or.inr (Or.inl hsdp)), hnoop s (Or.inr (Or.inl hsdp))]
    | some sdp =>
      cases hsess : s.media.session with
      | none => rw [hnoop s (Or.inr (Or.inr hsess)), hnoop s (Or.inr (Or.inr hsess))]
      | some sess =>
        rw [onAnswer_spec me candOk sig sdp s sess haddr hsdp hsess]
        rw [onAnswer_spec me candOk sig sdp _
          { sess with remoteDescription := some sdp,
                      appliedCandidates := sess.appliedCandidates
                        ++ s.media.pendingRemoteCandidates.filter candOk }
          haddr hsdp rfl]
        simp

/-- The call-accepted broadcast handler is idempotent: the first delivery
clears the pending outgoing slot (and the caller handshake never restores
it), so a duplicate matches nothing. -/
theorem onCallAccepted_noop (me : String) (mediaOk : Bool) (sig : SignalPayload)
    (s : CtrlState)
    (h : sigAddressedElsewhere me sig = true ∨ s.pendingOutgoingCall = none
      ∨ (∃ p, s.pendingOutgoingCall = some p ∧ ¬ p.id = sig.callId)) :
    onCallAccepted me mediaOk sig s = s := by
  unfold onCallAccepted
  rcases h with h | h | ⟨p, hp, hid⟩
  · rw [if_pos h]
  · rw [h]
    by_cases ha : sigAddressedElsewhere me sig = true
    · rw [if_pos ha]
    · rw [if_neg ha]
  · rw [hp]
    by_cases ha : sigAddressedElsewhere me sig = true
    · rw [if_pos ha]
    · rw [if_neg ha]
      simp only [if_neg hid]

theorem onCallAccepted_run (me : String) (mediaOk : Bool) (sig : SignalPayload)
    (s : CtrlState) (p : ActiveCall)
    (haddr : sigAddressedElsewhere me sig = false)
    (hp : s.pendingOutgoingCall = some p) (hid : p.id = sig.callId) :
    onCallAccepted me mediaOk sig s
      = startCallerHandshake me mediaOk
          { p with acceptedBy := some sig.fromId, status := RowStatus.accepted }
          { s with pendingOutgoingCall := none,
                   activeCall := some { p with
                                        acceptedBy := some sig.fromId,
                                        status := RowStatus.accepted },
                   callStatus := UIStatus.connecting,
                   activeConversationId := some p.conversationId } := by
  unfold onCallAccepted
  rw [haddr, hp]
  rw [if_neg (by simp)]
  simp only [if_pos hid]

/-- The call-accepted broadcast handler is idempotent: the first delivery
clears the pending outgoing slot (and the caller handshake never restores
it), so a duplicate matches nothing. -/
theorem onCallAccepted_idem (me : String) (mediaOk : Bool) (sig : SignalPayload)
    (s : CtrlState) :
    onCallAccepted me mediaOk sig (onCallAccepted me mediaOk sig s)
      = onCallAccepted me mediaOk sig s := by
  by_cases haddr : sigAddressedElsewhere me sig = true
  · rw [onCallAccepted_noop me mediaOk sig s (Or.inl haddr),
      onCallAccepted_noop me mediaOk sig s (Or.inl haddr)]
  · rw [Bool.not_eq_true] at haddr
    cases hp : s.pendingOutgoingCall with
    | none =>
      rw [onCallAccepted_noop me mediaOk sig s (Or.inr (Or.inl hp)),
        onCallAccepted_noop me mediaOk sig s (Or.inr (Or.inl hp))]
    | some p =>
      by_cases hid : p.id = sig.callId
      · rw [onCallAccepted_run me mediaOk sig s p haddr hp hid]
        exact onCallAccepted_noop me mediaOk sig _ (Or.inr (Or.inl
          ((startCallerHandshake_slots me mediaOk
            { p with acceptedBy := some sig.fromId, status := RowStatus.accepted }
            { s with pendingOutgoingCall := none,
                     activeCall := some { p with
                                          acceptedBy := some sig.fromId,
                                          status := RowStatus.accepted },
                     callStatus := UIStatus.connecting,
                     activeConversationId := some p.conversationId }).2.2.1)))
      · rw [onCallAccepted_noop me mediaOk sig s (Or.inr (Or.inr ⟨p, hp, hid⟩)),
          onCallAccepted_noop me mediaOk sig s (Or.inr (Or.inr ⟨p, hp, hid⟩))]

/-- The call-change handler is idempotent: processing the identical
call_requests notification a second time changes nothing.  The pending and
accepted branches rewrite the slots to the same values, the caller
handshake is guarded by the existing connection, a deterministic media
failure reproduces the same error state, and a terminal notification finds
no related slot the second time. -/
theorem handleCallChange_idem (me : String) (mediaOk : Bool) (raw : RawCallRow)
    (s : CtrlState) :
    handleCallChange me mediaOk raw (handleCallChange me mediaOk raw s)
      = handleCallChange me mediaOk raw s := by
  obtain ⟨scs, sce, sac, sic, spc, sacid, smed, ssig⟩ := s
  obtain ⟨msess, mq, mg, ml, mr, mm, mn⟩ := smed
  unfold handleCallChange
  cases hn : normalizeCall raw with
  | none => rfl
  | some call =>
    obtain ⟨cid, cconv, creq, cacc, cstat⟩ := call
    cases cstat with
    | pending =>
      simp only []
      by_cases hreq : creq = me
      · simp [hreq]
      · by_cases hidle : scs = UIStatus.idle
        · simp [hreq, hidle]
        · simp [hreq, hidle]
    | accepted =>
      simp only []
      cases cacc with
      | none => rfl
      | some cb =>
        simp only []
        by_cases hreq : creq = me
        · simp only [if_pos hreq]
          cases msess with
          | some sess => simp
          | none =>
            unfold startCallerHandshake ensureLocalStream createPeerConnection
              setLocalDescription
            cases ml with
            | some u => simp
            | none =>
              cases mediaOk with
              | true => simp
              | false => simp
        · by_cases hcb : cb = me
          · simp [hreq, hcb]
          · simp [hreq, hcb]
    | rejected =>
      simp only [Bool.or_eq_true]
      by_cases hrel : ((slotHasId sac cid = true ∨ slotHasId sic cid = true)
          ∨ slotHasId spc cid = true)
      · rw [if_pos hrel]
        by_cases hreq : creq = me
        · simp [slotHasId, hreq]
        · simp [slotHasId, hreq]
      · rw [if_neg hrel]
        simp [hrel]
    | ended =>
      simp only [Bool.or_eq_true]
      by_cases hrel : ((slotHasId sac cid = true ∨ slotHasId sic cid = true)
          ∨ slotHasId spc cid = true)
      · rw [if_pos hrel]
        simp [slotHasId]
      · rw [if_neg hrel]
        simp [hrel]
    | cancelled =>
      simp only [Bool.or_eq_true]
      by_cases hrel : ((slotHasId sac cid = true ∨ slotHasId sic cid = true)
          ∨ slotHasId spc cid = true)
      · rw [if_pos hrel]
        simp [slotHasId]
      · rw [if_neg hrel]
        simp [hrel]

/-- C2 (counterexample): the identical webrtc-ice envelope delivered twice
while a session exists with no remote description is queued twice: the
candidate queue after two deliveries is cand-1, cand-1 instead of cand-1,
an observable state change beyond the first application. -/
theorem c2_counterexample :
    (onIce "bob" (fun _ => true) (mkIceSig 1 7 "alice" "bob" "cand-1")
        (onIce "bob" (fun _ => true) (mkIceSig 1 7 "alice" "bob" "cand-1")
          { callStatus := UIStatus.connecting, callError := none, activeCall := none,
            incomingCall := none, pendingOutgoingCall := none,
            activeConversationId := some 7,
            media := { session := some { gen := 0, remoteDescription := none,
                                         localDescription := none,
                                         appliedCandidates := [] },
                       pendingRemoteCandidates := [], handshakeStartedFor := none,
                       localStream := some (), remoteStream := none,
                       isMicMuted := false, nextGen := 1 },
            sentSignals := [] })).media.pendingRemoteCandidates
      = ["cand-1", "cand-1"] ∧
    (onIce "bob" (fun _ => true) (mkIceSig 1 7 "alice" "bob" "cand-1")
        { callStatus := UIStatus.connecting, callError := none, activeCall := none,
          incomingCall := none, pendingOutgoingCall := none,
          activeConversationId := some 7,
          media := { session := some { gen := 0, remoteDescription := none,
                                       localDescription := none,
                                       appliedCandidates := [] },
                     pendingRemoteCandidates := [], handshakeStartedFor := none,
                     localStream := some (), remoteStream := none,
                     isMicMuted := false, nextGen := 1 },
          sentSignals := [] }).media.pendingRemoteCandidates
      = ["cand-1"] := by
  exact ⟨rfl, rfl⟩

/-- C2 (amended): persisted-state notifications are idempotent, and so are
the call-accepted, webrtc-answer and call-ended signal handlers; the
webrtc-ice handler is not (a duplicate candidate is queued or applied
twice), and the webrtc-offer handler re-runs the callee handshake on a
duplicate, replacing the peer-connection session. -/
theorem c2_idempotent_handlers :
    (∀ (me : String) (mediaOk : Bool) (raw : RawCallRow) (s : CtrlState),
      handleCallChange me mediaOk raw (handleCallChange me mediaOk raw s)
        = handleCallChange me mediaOk raw s) ∧
    (∀ (me : String) (mediaOk : Bool) (sig : SignalPayload) (s : CtrlState),
      onCallAccepted me mediaOk sig (onCallAccepted me mediaOk sig s)
        = onCallAccepted me mediaOk sig s) ∧
    (∀ (me : String) (candOk : String → Bool) (sig : SignalPayload) (s : CtrlState),
      onAnswer me candOk sig (onAnswer me candOk sig s) = onAnswer me candOk sig s) ∧
    (∀ (sig : SignalPayload) (s : CtrlState),
      onCallEnded sig (onCallEnded sig s) = onCallEnded sig s) :=
  ⟨handleCallChange_idem, onCallAccepted_idem, onAnswer_idem, onCallEnded_idem⟩

end Huckter
